import Mathlib

/-!
Shallow embedding of `src/connector.cpp`, a console message communicator:
one process listens, one dials; two threads relay stdin→socket and
socket→stdout against a shared atomic `running` flag.

Bytes are modelled as `Nat` (values of `char`/`ssize_t` data), buffers as
`List Nat`, and each blocking system call as an oracle response supplied in a
list, so the relay loops become recursive functions over the response list.
-/

namespace Connector

/-- Buffer size of the inbound relay: `const size_t BUF = 1024;` (line 91). -/
def BUF : Nat := 1024

/-- Byte count requested from the socket by each `recv` call:
`recv(sockfd, buf.data(), BUF - 1, 0)` (line 94). -/
def recvRequestSize : Nat := BUF - 1

/-- What the kernel can return for a `recv` of `avail` available bytes:
never more than the requested `BUF - 1`. -/
def recv_return (avail : Nat) : Nat := min avail recvRequestSize

/-- Bytes of a string literal printed by the program. -/
def strBytes (s : String) : List Nat := s.data.map Char.toNat

/-- The `"[remote] "` output tag of the inbound relay (line 97), as ASCII bytes. -/
def remoteTag : List Nat := [91, 114, 101, 109, 111, 116, 101, 93, 32]

/-- Effect on the 1024-byte buffer of a `recv` that delivered `chunk` followed
by `buf[n] = '\0'` (lines 94-96): the chunk overwrites the first `n` cells and
cell `n` is set to `0`; the rest of the buffer keeps its previous contents. -/
def writeChunk (buf chunk : List Nat) : List Nat :=
  (chunk ++ buf.drop chunk.length).set chunk.length 0

/-- The bytes `cout << buf.data()` actually emits: C-string semantics, i.e.
everything before the first NUL byte (line 97). -/
def cString (buf : List Nat) : List Nat := buf.takeWhile (fun b => b != 0)

/-- Oracle outcome of one `recv` call in `recv_loop` (line 94):
`n > 0` bytes delivered, `n == 0` (peer closed), an `EINTR` failure,
or any other failure. -/
inductive RecvRes where
  | data (chunk : List Nat)
  | closed
  | errOther
  | eintr
  deriving DecidableEq

/-- One observable console action of the inbound relay. -/
inductive OutEv where
  | stdout (bytes : List Nat)
  | noticeClosed
  | errRecv
  deriving DecidableEq

/-- `recv_loop` (lines 90-111), driven by a list of `recv` outcomes.
Returns the console events it produced and the final value of `running`
(`true` means the loop is still blocked waiting for more `recv` outcomes). -/
def recv_loop_run : List RecvRes → List Nat → Bool → List OutEv × Bool
  | _, _, false => ([], false)
  | [], _, true => ([], true)
  | .data chunk :: rest, buf, true =>
      let buf1 := writeChunk buf chunk
      let line := remoteTag ++ cString buf1 ++
        (if buf1[chunk.length - 1]? = some 10 then [] else [10])
      let r := recv_loop_run rest buf1 true
      (.stdout line :: r.1, r.2)
  | .closed :: _, _, true => ([.noticeClosed], false)
  | .errOther :: _, _, true => ([.errRecv], false)
  | .eintr :: rest, buf, true => recv_loop_run rest buf true

/-! Helper lemmas about the inbound relay's buffer handling. -/

lemma takeWhile_of_length_eq (p : Nat → Bool) (l : List Nat)
    (h : (l.takeWhile p).length = l.length) : l.takeWhile p = l := by
  induction l with
  | nil => rfl
  | cons a t ih =>
      by_cases hp : p a = true
      · simp [List.takeWhile_cons, hp] at h ⊢
        exact List.takeWhile_eq_self_iff.mp (ih h)
      · simp [List.takeWhile_cons, hp] at h

lemma writeChunk_eq (buf chunk : List Nat) (h : chunk.length < buf.length) :
    writeChunk buf chunk = chunk ++ 0 :: (buf.drop chunk.length).tail := by
  unfold writeChunk
  rw [List.set_append_right _ _ (le_refl chunk.length), Nat.sub_self]
  have hlen : 0 < (buf.drop chunk.length).length := by
    rw [List.length_drop]; omega
  cases hd : buf.drop chunk.length with
  | nil => rw [hd] at hlen; simp at hlen
  | cons a t => simp [List.set]

lemma cString_append_zero (chunk t : List Nat) :
    cString (chunk ++ 0 :: t) = chunk.takeWhile (fun b => b != 0) := by
  unfold cString
  rw [List.takeWhile_append]
  split
  · next h =>
      rw [takeWhile_of_length_eq _ _ h]
      simp [List.takeWhile_cons]
  · rfl

lemma append_zero_getLast (chunk t : List Nat) (hne : chunk ≠ []) :
    (chunk ++ 0 :: t)[chunk.length - 1]? = chunk.getLast? := by
  rw [List.getElem?_append_left, List.getLast?_eq_getElem?]
  have : 0 < chunk.length := List.length_pos.mpr hne
  omega

/-- One `.data` iteration of `recv_loop`, in closed form: the printed bytes
are the chunk truncated at its first NUL, and the append-a-newline test
looks at the last byte received. -/
lemma recv_loop_data_eq (chunk buf : List Nat) (rest : List RecvRes)
    (hne : chunk ≠ []) (hlen : chunk.length ≤ recvRequestSize)
    (hbuf : buf.length = BUF) :
    recv_loop_run (.data chunk :: rest) buf true =
      (.stdout (remoteTag ++ chunk.takeWhile (fun b => b != 0) ++
          (if chunk.getLast? = some 10 then [] else [10])) ::
            (recv_loop_run rest (writeChunk buf chunk) true).1,
       (recv_loop_run rest (writeChunk buf chunk) true).2) := by
  have hlt : chunk.length < buf.length := by
    rw [hbuf]
    unfold recvRequestSize BUF at hlen
    unfold BUF
    omega
  simp only [recv_loop_run]
  rw [writeChunk_eq buf chunk hlt, cString_append_zero,
    append_zero_getLast _ _ hne]

/-! Outbound relay (`send_loop`, lines 113-138). -/

/-- The wire message built for one input line:
`string out = username + ": " + line + "\n";` (line 117). -/
def send_loop_message (username line : String) : String :=
  username ++ ": " ++ line ++ "\n"

/-- The pieces streamed to `cout` for the local echo, in order, before the
terminating `endl`: `cout << "[you] " << username << ": " << line` (line 119). -/
def send_loop_echo_pieces (username line : String) : List String :=
  ["[you] ", username, ": ", line]

/-- The local echo line (content before the `endl` newline). -/
def send_loop_echo (username line : String) : String :=
  String.join (send_loop_echo_pieces username line)

/-- Spec 4.2: the outbound relay constructs `DisplayName + ": " + line + "\n"`. -/
def spec_wire_message (name text : String) : String :=
  name ++ (": " ++ (text ++ "\n"))

/-- Spec 4.2: the echo is `"[you] " + DisplayName + ": " + line`. -/
def spec_local_echo (name text : String) : String :=
  "[you] " ++ (name ++ (": " ++ text))

/-- Oracle outcome of one `send` call in `send_loop`'s inner loop (line 125):
`n ≥ 0` bytes accepted, an `EINTR` failure, or any other failure. -/
inductive SendRes where
  | ok (n : Nat)
  | errOther
  | eintr
  deriving DecidableEq

/-- Result of the inner write loop of `send_loop` (lines 121-134). -/
structure SendOut where
  /-- Final value of the local `sent` counter. -/
  sent : Nat
  /-- `true` iff the loop exited because `to_send` reached `0`. -/
  complete : Bool
  /-- Value of the shared `running` flag when the loop exits. -/
  running : Bool
  /-- The oracle responses not consumed (on error the loop returns at once,
  sending nothing further). -/
  leftover : List SendRes
  deriving DecidableEq

/-- The inner write loop of `send_loop` (lines 121-134), driven by a list of
`send` outcomes; state is `(sent, to_send, running)` exactly as in the code.
`none` means the oracle was exhausted (or returned more than requested)
before the loop finished. -/
def send_all : List SendRes → Nat → Nat → Bool → Option SendOut
  | resps, sent, 0, running => some ⟨sent, true, running, resps⟩
  | [], _, _ + 1, _ => none
  | .ok n :: rest, sent, t + 1, running =>
      if n ≤ t + 1 then send_all rest (sent + n) (t + 1 - n) running else none
  | .errOther :: rest, sent, _ + 1, _ => some ⟨sent, false, false, rest⟩
  | .eintr :: rest, sent, t + 1, running => send_all rest sent (t + 1) running

/-- The outer loop guard of `send_loop`:
`while (running.load() && std::getline(cin, line))` (line 115). -/
def send_loop_enters (running getlineOk : Bool) : Bool :=
  running && getlineOk

/-! Shutdown flag (`static atomic<bool> running`, line 23). -/

/-- Every program event that can touch the `running` flag, together with the
events of normal operation that leave it alone. -/
inductive FlagEvent where
  /-- `handle_sigint` (line 141): `running.store(false)`. -/
  | sigint
  /-- `recv_loop`, `n == 0` branch (line 102): `running.store(false)`. -/
  | peerClosed
  /-- `recv_loop`, other-error branch (line 107): `running.store(false)`. -/
  | recvError
  /-- `send_loop`, send-error branch (line 129): `running.store(false)`. -/
  | sendError
  /-- `send_loop` after the outer loop, EOF on stdin (line 137):
  `running.store(false)`. -/
  | stdinEof
  /-- `recv_loop`, `n > 0` branch: no store to the flag. -/
  | recvData
  /-- `recv_loop`, `EINTR` branch: no store to the flag. -/
  | recvEintr
  /-- `send_loop`, successful send: no store to the flag. -/
  | sendOk
  /-- `send_loop`, `EINTR` branch: no store to the flag. -/
  | sendEintr
  deriving DecidableEq

/-- Effect of one event on the `running` flag, read off the five
`running.store(false)` sites; no site ever stores `true` after line 23. -/
def flag_update : FlagEvent → Bool → Bool
  | .sigint, _ => false
  | .peerClosed, _ => false
  | .recvError, _ => false
  | .sendError, _ => false
  | .stdinEof, _ => false
  | .recvData, r => r
  | .recvEintr, r => r
  | .sendOk, r => r
  | .sendEintr, r => r

/-- The events that request shutdown (the five `running.store(false)` sites). -/
def is_shutdown_trigger : FlagEvent → Bool
  | .sigint => true
  | .peerClosed => true
  | .recvError => true
  | .sendError => true
  | .stdinEof => true
  | _ => false

/-- The flag after a sequence of events. -/
def run_flag (es : List FlagEvent) (r : Bool) : Bool :=
  es.foldl (fun b e => flag_update e b) r

/-! Session supervision (`main`, lines 192-206). -/

/-- The monitor loop guard: `while (running.load())` (line 196). -/
def monitor_continues (running : Bool) : Bool := running

/-- The operations `main` performs after its monitor loop exits,
in program order (lines 199-205). -/
inductive MainOp where
  | shutdownCall
  | closeCall
  | joinSend
  | joinRecv
  | printExit
  deriving DecidableEq, BEq

/-- `shutdown(conn_fd, SHUT_RDWR); close(conn_fd); s.join(); r.join();
cout << "Exiting."` (lines 199-205). -/
def main_shutdown_sequence : List MainOp :=
  [.shutdownCall, .closeCall, .joinSend, .joinRecv, .printExit]

/-! Connection establishment (lines 25-88) and `main`'s exit code (lines 144-207). -/

/-- Environment for `create_server_socket` (lines 25-62): whether each system
call succeeds, and the descriptor number the kernel would hand out. -/
structure ServerEnv where
  getaddrinfoOk : Bool
  socketOk : Bool
  bindOk : Bool
  listenOk : Bool
  sfd : Nat
  deriving DecidableEq

/-- `create_server_socket` (lines 25-62): `-1` on getaddrinfo, socket, bind or
listen failure, otherwise the listening descriptor. -/
def create_server_socket (e : ServerEnv) : Int :=
  if !e.getaddrinfoOk then -1
  else if !e.socketOk then -1
  else if !e.bindOk then -1
  else if !e.listenOk then -1
  else Int.ofNat e.sfd

/-- Outcome of one candidate address in `create_client_socket`'s loop
(lines 76-82): `socket` fails (continue), `connect` fails (close, continue),
or `connect` succeeds with descriptor `fd`. -/
inductive CandRes where
  | socketFail
  | connectFail
  | connected (fd : Nat)
  deriving DecidableEq

/-- The candidate loop of `create_client_socket` (lines 75-82): first
successful connect wins; `-1` if every candidate fails. -/
def try_candidates : List CandRes → Int
  | [] => -1
  | .socketFail :: rest => try_candidates rest
  | .connectFail :: rest => try_candidates rest
  | .connected fd :: _ => Int.ofNat fd

/-- `create_client_socket` (lines 64-88): `-1` if resolution fails, else the
result of the candidate loop. -/
def create_client_socket (resolveOk : Bool) (cands : List CandRes) : Int :=
  if !resolveOk then -1 else try_candidates cands

/-- Environment for `main` (lines 144-207): the argument count, the mode
chosen by `argv[1]`, and the establishment outcomes. -/
structure MainEnv where
  argc : Nat
  listenMode : Bool
  server : ServerEnv
  acceptOk : Bool
  resolveOk : Bool
  cands : List CandRes
  deriving DecidableEq

/-- `main`'s exit code (lines 144-207): `1` at each establishment bail-out,
`0` after the session (the session path always reaches `return 0`, line 206,
whatever triggered shutdown). -/
def main_exit (e : MainEnv) : Nat :=
  if e.argc < 2 then 1
  else if e.listenMode then
    if e.argc < 3 then 1
    else if create_server_socket e.server < 0 then 1
    else if !e.acceptOk then 1
    else 0
  else
    if e.argc < 3 then 1
    else if create_client_socket e.resolveOk e.cands < 0 then 1
    else 0

/-- Spec 6/7: the session is established (so the process reaches the clean
shutdown path) when the arguments are present and every establishment step of
the chosen role succeeds, with the dialer needing only some candidate to
connect. -/
def establishment_succeeds (e : MainEnv) : Prop :=
  2 ≤ e.argc ∧ 3 ≤ e.argc ∧
    (if e.listenMode then
      (e.server.getaddrinfoOk = true ∧ e.server.socketOk = true ∧
        e.server.bindOk = true ∧ e.server.listenOk = true) ∧ e.acceptOk = true
    else
      e.resolveOk = true ∧ ∃ fd, CandRes.connected fd ∈ e.cands)

lemma try_candidates_nonneg (cands : List CandRes) :
    0 ≤ try_candidates cands ↔ ∃ fd, CandRes.connected fd ∈ cands := by
  induction cands with
  | nil => simp [try_candidates]
  | cons c rest ih =>
      cases c with
      | socketFail => simpa [try_candidates] using ih
      | connectFail => simpa [try_candidates] using ih
      | connected fd => simp [try_candidates, Int.ofNat_nonneg]

lemma create_server_socket_nonneg (e : ServerEnv) :
    0 ≤ create_server_socket e ↔
      (e.getaddrinfoOk = true ∧ e.socketOk = true ∧
        e.bindOk = true ∧ e.listenOk = true) := by
  unfold create_server_socket
  cases e.getaddrinfoOk <;> cases e.socketOk <;> cases e.bindOk <;>
    cases e.listenOk <;> simp [Int.ofNat_nonneg]

lemma create_client_socket_nonneg (ro : Bool) (cands : List CandRes) :
    0 ≤ create_client_socket ro cands ↔
      (ro = true ∧ ∃ fd, CandRes.connected fd ∈ cands) := by
  cases ro <;> simp [create_client_socket, try_candidates_nonneg]

lemma send_all_spec (resps : List SendRes) : ∀ sent t run out,
    send_all resps sent t run = some out →
      (out.complete = true → out.sent = sent + t ∧ out.running = run) ∧
      (out.complete = false → out.running = false) := by
  induction resps with
  | nil =>
      intro sent t run out h
      cases t with
      | zero =>
          simp [send_all] at h
          subst h
          simp
      | succ t => simp [send_all] at h
  | cons r rest ih =>
      intro sent t run out h
      cases t with
      | zero =>
          simp [send_all] at h
          subst h
          simp
      | succ t =>
          cases r with
          | ok n =>
              simp only [send_all] at h
              split at h
              · next hn =>
                  have := ih (sent + n) (t + 1 - n) run out h
                  refine ⟨fun hc => ?_, this.2⟩
                  obtain ⟨h1, h2⟩ := this.1 hc
                  exact ⟨by omega, h2⟩
              · exact absurd h (by simp)
          | errOther =>
              simp [send_all] at h
              subst h
              simp
          | eintr =>
              simp only [send_all] at h
              exact ih sent (t + 1) run out h

/-! The claims. -/

/-- C1: the code closes the connection descriptor exactly once, but it does so
before joining the two relay threads, not after: in `main`'s shutdown sequence
the `close(conn_fd)` call precedes both `s.join()` and `r.join()`, so the
spec's rule that the close happens only after both relays have returned is
violated by the source order. -/
theorem close_precedes_joins :
    main_shutdown_sequence.count .closeCall = 1 ∧
    main_shutdown_sequence.indexOf .closeCall <
      main_shutdown_sequence.indexOf .joinSend ∧
    main_shutdown_sequence.indexOf .closeCall <
      main_shutdown_sequence.indexOf .joinRecv := by decide

/-- C2 counterexample: the receive call requests `BUF - 1 = 1023` bytes, not
1024; even with 1024 bytes available the kernel can return at most 1023. -/
theorem recv_request_not_1024 :
    recvRequestSize ≠ 1024 ∧ recv_return 1024 = 1023 := by decide

/-- C2 amended: the inbound relay's buffer is 1024 bytes but each receive
call requests at most `BUF - 1 = 1023` bytes (one byte is reserved for the
NUL terminator), so no read can ever deliver more than 1023 bytes. -/
theorem recv_request_is_1023 :
    BUF = 1024 ∧ recvRequestSize = 1023 ∧
      ∀ avail, recv_return avail ≤ 1023 := by
  refine ⟨rfl, rfl, fun avail => ?_⟩
  exact min_le_right avail 1023

/-- C3: for one input line of `msgLen` bytes, the inner write loop either
completes with exactly `msgLen` bytes sent and the shutdown flag untouched, or
stops on a write error with the shutdown flag set (the unconsumed oracle
responses witness that nothing further was attempted). -/
theorem send_all_complete_or_error (resps : List SendRes) (msgLen : Nat)
    (run : Bool) (out : SendOut) (h : send_all resps 0 msgLen run = some out) :
    (out.complete = true → out.sent = msgLen ∧ out.running = run) ∧
    (out.complete = false → out.running = false) := by
  have hs := send_all_spec resps 0 msgLen run out h
  simpa using hs

theorem send_all_complete_or_error_witness :
    send_all [.ok 3, .ok 2] 0 5 true = some ⟨5, true, true, []⟩ ∧
    ((⟨5, true, true, []⟩ : SendOut).complete = true →
      (⟨5, true, true, []⟩ : SendOut).sent = 5 ∧
        (⟨5, true, true, []⟩ : SendOut).running = true) :=
  ⟨by decide,
    (send_all_complete_or_error [.ok 3, .ok 2] 5 true ⟨5, true, true, []⟩
      (by decide)).1⟩

/-- C4: for every display name and input line, the outbound relay's wire
message is exactly `DisplayName + ": " + line + "\n"` and its local echo line
is exactly `"[you] " + DisplayName + ": " + line`. -/
theorem outbound_message_and_echo_shape (username line : String) :
    send_loop_message username line = spec_wire_message username line ∧
    send_loop_echo username line = spec_local_echo username line := by
  constructor
  · simp [send_loop_message, spec_wire_message, String.append_assoc]
  · simp [send_loop_echo, send_loop_echo_pieces, spec_local_echo,
      String.join, String.append_assoc]

set_option maxRecDepth 8192 in
/-- C5 counterexample: on the 3-byte chunk `[97, 0, 98]` (with the buffer in
its zero-initialised state) the inbound relay does not print the received
bytes: C-string printing stops at the embedded NUL, so the output is
`"[remote] a\n"` rather than the claimed full chunk. -/
theorem recv_print_drops_after_nul_cex :
    (recv_loop_run [.data [97, 0, 98]] (List.replicate BUF 0) true).1 ≠
      [.stdout (remoteTag ++ [97, 0, 98] ++ [10])] := by decide

/-- C5 amended: for every nonempty chunk of at most 1023 bytes delivered into
the 1024-byte buffer, the inbound relay prints, prefixed with `"[remote] "`,
the received bytes up to but excluding the first NUL byte (C-string
semantics), and appends a newline if and only if the final received byte is
not a newline. -/
theorem recv_print_upto_first_nul (chunk buf : List Nat) (rest : List RecvRes)
    (hne : chunk ≠ []) (hlen : chunk.length ≤ recvRequestSize)
    (hbuf : buf.length = BUF) :
    recv_loop_run (.data chunk :: rest) buf true =
      (.stdout (remoteTag ++ chunk.takeWhile (fun b => b != 0) ++
          (if chunk.getLast? = some 10 then [] else [10])) ::
            (recv_loop_run rest (writeChunk buf chunk) true).1,
       (recv_loop_run rest (writeChunk buf chunk) true).2) :=
  recv_loop_data_eq chunk buf rest hne hlen hbuf

set_option maxRecDepth 8192 in
theorem recv_print_upto_first_nul_witness :
    recv_loop_run [.data [104, 105]] (List.replicate BUF 0) true =
      (.stdout (remoteTag ++ ([104, 105] : List Nat).takeWhile (fun b => b != 0) ++
          (if ([104, 105] : List Nat).getLast? = some 10 then [] else [10])) ::
            (recv_loop_run []
              (writeChunk (List.replicate BUF 0) [104, 105]) true).1,
       (recv_loop_run []
         (writeChunk (List.replicate BUF 0) [104, 105]) true).2) :=
  recv_print_upto_first_nul [104, 105] (List.replicate BUF 0) []
    (by decide) (by decide) (by decide)

/-- C6: a zero-byte read makes the inbound relay print the peer-closed notice,
set the shutdown flag to false-running and stop at once (whatever `recv`
outcomes would have followed); with the flag cleared, the outbound relay's
loop guard refuses another iteration even when more input is available (it
detects no failure of its own), and the supervising monitor loop exits, which
is what runs the shutdown sequence that joins both relays. -/
theorem peer_close_stops_session (buf : List Nat) (rest : List RecvRes) :
    recv_loop_run (.closed :: rest) buf true = ([.noticeClosed], false) ∧
    (∀ g, send_loop_enters false g = false) ∧
    monitor_continues false = false := by
  refine ⟨rfl, fun g => rfl, rfl⟩

/-- C7: the shutdown flag is monotonic and idempotent: once cleared it stays
cleared under every program event; each of the five shutdown-trigger sites
unconditionally clears it; every event's effect is idempotent; and two
shutdown requests (from any two triggers, in any order) leave the flag exactly
as one request does. -/
theorem shutdown_flag_monotone_idempotent :
    (∀ es, run_flag es false = false) ∧
    (∀ e r, is_shutdown_trigger e = true → flag_update e r = false) ∧
    (∀ e r, flag_update e (flag_update e r) = flag_update e r) ∧
    (∀ e₁ e₂ r, is_shutdown_trigger e₁ = true → is_shutdown_trigger e₂ = true →
      run_flag [e₁, e₂] r = run_flag [e₁] r) := by
  have hstay : ∀ e, flag_update e false = false := by
    intro e; cases e <;> rfl
  refine ⟨?_, ?_, ?_, ?_⟩
  · intro es
    induction es with
    | nil => rfl
    | cons e es ih =>
        simp only [run_flag, List.foldl] at ih ⊢
        rw [hstay e]
        exact ih
  · intro e r h
    cases e <;> simp_all [flag_update, is_shutdown_trigger]
  · intro e r
    cases e <;> rfl
  · intro e₁ e₂ r h₁ h₂
    cases e₁ <;> cases e₂ <;>
      simp_all [run_flag, List.foldl, flag_update, is_shutdown_trigger]

theorem shutdown_flag_monotone_idempotent_witness :
    is_shutdown_trigger .sigint = true ∧ flag_update .sigint true = false :=
  ⟨rfl, shutdown_flag_monotone_idempotent.2.1 .sigint true rfl⟩

/-- C8: an `EINTR` failure is fully transparent: the inbound relay's loop on
an `EINTR` outcome behaves exactly as if the call had not happened (no output,
no flag change), and the outbound relay's inner write loop on an `EINTR`
outcome continues with `sent` and `to_send` unchanged, so the retried write
covers exactly the bytes not yet sent. -/
theorem eintr_retry_transparent :
    (∀ rest buf,
      recv_loop_run (.eintr :: rest) buf true = recv_loop_run rest buf true) ∧
    (∀ rest sent t run,
      send_all (.eintr :: rest) sent (t + 1) run =
        send_all rest sent (t + 1) run) := by
  exact ⟨fun rest buf => rfl, fun rest sent t run => rfl⟩

/-- C9: the process exit code is always 0 or 1, and it is 0 exactly when the
session was established (arguments present and every establishment step of the
chosen role succeeded); every establishment failure — missing arguments,
resolution, socket, bind, listen, accept or connect failure — therefore
exits with 1, and any established session exits 0 whatever triggered its
shutdown. -/
theorem exit_codes_establishment (e : MainEnv) :
    (main_exit e = 0 ∨ main_exit e = 1) ∧
    (main_exit e = 0 ↔ establishment_succeeds e) := by
  constructor
  · unfold main_exit
    split_ifs <;> simp
  · unfold main_exit establishment_succeeds
    split_ifs with h1 h2 h3 h4 h5 h6 h7 <;>
      simp_all [← create_server_socket_nonneg, ← create_client_socket_nonneg,
        Int.not_lt]

/-- C10: when a chunk of at most 1023 bytes containing an embedded NUL byte is
received, the inbound relay prints only the bytes before the first NUL (a
strict truncation of the chunk), while the append-a-newline decision still
inspects the last byte received, not the last byte printed. -/
theorem embedded_nul_truncation (chunk buf : List Nat) (rest : List RecvRes)
    (hnul : 0 ∈ chunk) (hlen : chunk.length ≤ recvRequestSize)
    (hbuf : buf.length = BUF) :
    (recv_loop_run (.data chunk :: rest) buf true).1.head? =
      some (.stdout (remoteTag ++ chunk.takeWhile (fun b => b != 0) ++
        (if chunk.getLast? = some 10 then [] else [10]))) ∧
    chunk.takeWhile (fun b => b != 0) ≠ chunk := by
  have hne : chunk ≠ [] := by rintro rfl; simp at hnul
  constructor
  · rw [recv_loop_data_eq chunk buf rest hne hlen hbuf]
    rfl
  · intro hEq
    have h0 := List.takeWhile_eq_self_iff.mp hEq 0 hnul
    simp at h0

set_option maxRecDepth 8192 in
theorem embedded_nul_truncation_witness :
    (0 : Nat) ∈ ([97, 0, 98] : List Nat) ∧
    ((recv_loop_run [.data [97, 0, 98]] (List.replicate BUF 0) true).1.head? =
      some (.stdout (remoteTag ++
          ([97, 0, 98] : List Nat).takeWhile (fun b => b != 0) ++
        (if ([97, 0, 98] : List Nat).getLast? = some 10 then [] else [10]))) ∧
      ([97, 0, 98] : List Nat).takeWhile (fun b => b != 0) ≠ [97, 0, 98]) :=
  ⟨by decide,
    embedded_nul_truncation [97, 0, 98] (List.replicate BUF 0) []
      (by decide) (by decide) (by decide)⟩

end Connector
